import Mathlib

/-!
Shallow embedding of the pub/sub node of this repository
(src/pubsub/include/marlin/pubsub/PubSubNode.hpp) and proofs about it.

Transports are modelled as natural-number handles (the C++ code works with
`BaseTransport*` pointers); socket addresses and channels are naturals;
byte buffers are lists of naturals (each intended < 256).  The slot
containers (`PubSubTransportSet`, a set of transport pointers) are modelled
as duplicate-free lists: the node only ever inserts a transport after a
`check_tranport_present` test, so no claim depends on more than membership,
erase and size of the container.  External effects (sending on a transport,
closing it, delegate upcalls, dialing) are recorded as an `Action` trace;
results of external calls that the node branches on
(`cut_through_send_start`, `cut_through_send`, transport lookup) are
supplied by an `Env` record.
-/

namespace Marlin

abbrev Bytes := List Nat

/-- Big-endian read of `n` bytes at `off`, as in `net::Buffer::read_uintN_be`. -/
def readBE (b : Bytes) (off n : Nat) : Nat :=
  ((b.drop off).take n).foldl (fun a x => a * 256 + x % 256) 0

def readU64 (b : Bytes) (off : Nat) : Nat := readBE b off 8

def readU16 (b : Bytes) (off : Nat) : Nat := readBE b off 2

/-- Big-endian 2-byte encoding, truncating as `write_uint16_be` does. -/
def u16be (v : Nat) : Bytes := [v / 256 % 256, v % 256]

/-- Big-endian 8-byte encoding, as `write_uint64_be`. -/
def u64be (v : Nat) : Bytes :=
  [v / 256^7 % 256, v / 256^6 % 256, v / 256^5 % 256, v / 256^4 % 256,
   v / 256^3 % 256, v / 256^2 % 256, v / 256 % 256, v % 256]

/-- Overwrite two bytes at `off` with the big-endian encoding of `v`
(`net::Buffer::write_uint16_be`). -/
def setU16 (l : Bytes) (off v : Nat) : Bytes :=
  l.take off ++ u16be v ++ l.drop (off + 2)

/-- Parsed `MessageHeader` of PubSubNode.hpp: the attestation and witness
slices of the incoming buffer. -/
structure MessageHeaderRec where
  attestation : Bytes
  witness : Bytes
  deriving DecidableEq

/-- The two response strings the node sends ("SUBSCRIBED"/"UNSUBSCRIBED"). -/
inductive RespMsg where
  | subscribed
  | unsubscribed
  deriving DecidableEq

/-- Attester interface of §4.3 (attestation/Base.hpp), as used by
PubSubNode.hpp: sizes, the attestation bytes written by `attest`, the
parsed size of an incoming attestation, and `verify`. -/
structure Attester where
  attestation_size : Nat → Nat → Bytes → MessageHeaderRec → Nat
  attest : Nat → Nat → Bytes → MessageHeaderRec → Bytes
  parse_size : Bytes → Nat
  verify : Nat → Nat → Bytes → MessageHeaderRec → Bool

/-- Witnesser interface of §4.3, as used by PubSubNode.hpp. -/
structure Witnesser where
  witness_size : MessageHeaderRec → Nat
  witness : MessageHeaderRec → Bytes
  parse_size : Bytes → Nat

/-- Observable external effects of node operations. -/
inductive Action where
  | sendSUBSCRIBE (t ch : Nat)
  | sendUNSUBSCRIBE (t ch : Nat)
  | sendRESPONSE (t : Nat) (success : Bool) (msg : RespMsg)
  | transportSend (t : Nat) (buf : Bytes)
  | cutThroughSend (t : Nat) (buf : Bytes)
  | closeTransport (t : Nat)
  | delegateDidRecvMessage (channel msgId : Nat) (payload : Bytes)
      (header : MessageHeaderRec)
  | cutThroughSendStart (t length : Nat)
  | cutThroughSendBytes (t sid : Nat) (buf : Bytes)
  | cutThroughSendSkip (t sid : Nat)
  | cutThroughSendEnd (t sid : Nat)
  | cutThroughSendFlush (t sid : Nat)
  | dialAddr (addr : Nat)
  | manageSubscriptions
  deriving DecidableEq

/-- Mutable state of a `PubSubNode` (the fields of the C++ class that the
verified operations read or write). -/
structure NodeState where
  max_sol_conns : Nat
  max_unsol_conns : Nat
  sol_conns : List Nat
  sol_standby_conns : List Nat
  unsol_conns : List Nat
  blacklist_addr : List Nat
  message_id_set : List Nat
  message_id_events : List (List Nat)
  message_id_idx : Nat
  cut_through_map : List ((Nat × Nat) × List (Nat × Nat))
  cut_through_length : List ((Nat × Nat) × Nat)
  cut_through_header_recv : List ((Nat × Nat) × Bool)
  deriving DecidableEq

/-- Environment: attributes of live transports and return values of the
external calls the node branches on. -/
structure Env where
  dst_addr : Nat → Nat
  remote_static_pk : Nat → Bytes
  get_transport : Nat → Option Nat
  is_active : Nat → Bool
  ct_send_start_ret : Nat → Nat → Nat
  ct_send_bytes_ret : Nat → Nat → Int
  ct_send_ret : Nat → Int
  node_pk : Bytes
  channels : List Nat
  cut_through_used_ids : Nat → List Nat

/-! ### Association-list helpers for the `std::unordered_map` members -/

/-- `m[k]` read with default `d` (`std::unordered_map::operator[]`,
value part). -/
def alget {α : Type} : List ((Nat × Nat) × α) → (Nat × Nat) → α → α
  | [], _, d => d
  | e :: rest, k, d => if e.1 = k then e.2 else alget rest k d

/-- `m[k] = v`: update in place if present, else insert. -/
def alset {α : Type} : List ((Nat × Nat) × α) → (Nat × Nat) → α →
    List ((Nat × Nat) × α)
  | [], k, v => [(k, v)]
  | e :: rest, k, v => if e.1 = k then (k, v) :: rest else e :: alset rest k v

/-- The default-insertion a bare `operator[]` read performs when the key is
absent. -/
def altouch {α : Type} : List ((Nat × Nat) × α) → (Nat × Nat) → α →
    List ((Nat × Nat) × α)
  | [], k, d => [(k, d)]
  | e :: rest, k, d => if e.1 = k then e :: rest else e :: altouch rest k d

/-- `m.erase(k)`. -/
def alerase {α : Type} (l : List ((Nat × Nat) × α)) (k : Nat × Nat) :
    List ((Nat × Nat) × α) :=
  l.filter (fun e => e.1 != k)

/-! ### Slot management -/

/-- `check_tranport_present` (sic): membership in any of the three slot
sets. -/
def check_tranport_present (σ : NodeState) (t : Nat) : Bool :=
  t ∈ σ.sol_conns ∨ t ∈ σ.sol_standby_conns ∨ t ∈ σ.unsol_conns

/-- Selector for the three slot sets, to model `remove_conn`'s reference
parameter (the C++ compares `&t_set == &sol_conns` to decide whether to
send the UNSUBSCRIBED response). -/
inductive Slot where
  | sol
  | standby
  | unsol
  deriving DecidableEq

def getSlot (σ : NodeState) : Slot → List Nat
  | .sol => σ.sol_conns
  | .standby => σ.sol_standby_conns
  | .unsol => σ.unsol_conns

def setSlot (σ : NodeState) : Slot → List Nat → NodeState
  | .sol, l => { σ with sol_conns := l }
  | .standby, l => { σ with sol_standby_conns := l }
  | .unsol, l => { σ with unsol_conns := l }

/-- `remove_conn(t_set, transport)`. -/
def remove_conn (σ : NodeState) (s : Slot) (t : Nat) :
    Bool × NodeState × List Action :=
  if t ∈ getSlot σ s then
    (true, setSlot σ s ((getSlot σ s).filter (fun x => x != t)),
     if s = Slot.sol then [Action.sendRESPONSE t true RespMsg.unsubscribed] else [])
  else
    (false, σ, [])

/-- `add_sol_standby_conn(transport)`. -/
def add_sol_standby_conn (σ : NodeState) (t : Nat) : Bool × NodeState :=
  if check_tranport_present σ t then
    (false, σ)
  else
    (true, { σ with sol_standby_conns := σ.sol_standby_conns ++ [t] })

/-- `add_sol_conn(transport)` (the transport overload). -/
def add_sol_conn (env : Env) (σ : NodeState) (t : Nat) :
    Bool × NodeState × List Action :=
  if σ.sol_conns.length ≥ σ.max_sol_conns then
    (false, (add_sol_standby_conn σ t).2, [])
  else
    let r₁ := remove_conn σ Slot.standby t
    let r₂ := remove_conn r₁.2.1 Slot.unsol t
    if check_tranport_present r₂.2.1 t then
      (false, r₂.2.1, r₁.2.2 ++ r₂.2.2)
    else
      (true,
       { r₂.2.1 with sol_conns := r₂.2.1.sol_conns ++ [t] },
       r₁.2.2 ++ r₂.2.2 ++
         env.channels.map (fun ch => Action.sendSUBSCRIBE t ch) ++
         [Action.sendRESPONSE t true RespMsg.subscribed])

/-- `add_sol_conn(addr)` (the address overload).  The C++ function returns
`false` when the transport lookup yields `nullptr`, but after the
successful-lookup call of `add_sol_conn(*transport)` control falls off the
end of the bool-returning function: that path is modelled as `none`. -/
def add_sol_conn_addr (env : Env) (σ : NodeState) (addr : Nat) :
    Option Bool × NodeState × List Action :=
  match env.get_transport addr with
  | none => (some false, σ, [])
  | some t =>
    let r := add_sol_conn env σ t
    (none, r.2.1, r.2.2)

/-- `add_unsol_conn(transport)`. -/
def add_unsol_conn (σ : NodeState) (t : Nat) : Bool × NodeState × List Action :=
  if σ.unsol_conns.length ≥ σ.max_unsol_conns then
    (false, σ, [])
  else if check_tranport_present σ t then
    (false, σ, [])
  else
    (true, { σ with unsol_conns := σ.unsol_conns ++ [t] },
     [Action.sendRESPONSE t true RespMsg.subscribed])

/-- `blacklist_addr.erase(dst_addr)`. -/
def eraseBlacklist (env : Env) (σ : NodeState) (t : Nat) : NodeState :=
  { σ with
    blacklist_addr := σ.blacklist_addr.filter (fun a => a != env.dst_addr t) }

/-- `did_recv_SUBSCRIBE(transport, bytes)`; `accept_unsol_conn` is the
class template parameter. -/
def did_recv_SUBSCRIBE (accept_unsol_conn : Bool) (env : Env) (σ : NodeState)
    (t : Nat) : Int × NodeState × List Action :=
  if accept_unsol_conn then
    if env.dst_addr t ∈ σ.blacklist_addr then
      let r := add_sol_conn env (eraseBlacklist env σ t) t
      (0, r.2.1, r.2.2)
    else
      let r := add_unsol_conn σ t
      if ¬ check_tranport_present r.2.1 t then
        (-1, r.2.1, r.2.2 ++ [Action.closeTransport t])
      else
        (0, r.2.1, r.2.2)
  else
    (0, σ, [])

/-- `subscribe(addr, remote_static_pk)`. -/
def subscribe (env : Env) (σ : NodeState) (addr : Nat) :
    NodeState × List Action :=
  if addr ∈ σ.blacklist_addr then
    (σ, [])
  else
    match env.get_transport addr with
    | none => (σ, [Action.dialAddr addr])
    | some t =>
      if ¬ env.is_active t then
        (σ, [])
      else
        let r := add_sol_conn env σ t
        (r.2.1, r.2.2)

/-! ### MESSAGE path -/

/-- `create_MESSAGE`: type byte 3, message id, channel, attestation,
witness, payload. -/
def create_MESSAGE (att : Attester) (wit : Witnesser) (channel message_id : Nat)
    (data : Bytes) (prev_header : MessageHeaderRec) : Bytes :=
  [3] ++ u64be message_id ++ u16be channel ++
    att.attest message_id channel data prev_header ++
    wit.witness prev_header ++ data

/-- `send_message_with_cut_through_check(transport, ...)`: payloads over
50000 bytes go via `cut_through_send` of the created MESSAGE buffer (a
negative return closes the transport), the rest via `send_MESSAGE`. -/
def send_message_with_cut_through_check (att : Attester) (wit : Witnesser)
    (env : Env) (t channel message_id : Nat) (data : Bytes)
    (prev_header : MessageHeaderRec) : List Action :=
  if data.length > 50000 then
    let m := create_MESSAGE att wit channel message_id data prev_header
    if env.ct_send_ret t < 0 then
      [Action.cutThroughSend t m, Action.closeTransport t]
    else
      [Action.cutThroughSend t m]
  else
    [Action.transportSend t
      (create_MESSAGE att wit channel message_id data prev_header)]

/-- Whether `excluded` lets transport `t` through
(`excluded != nullptr && dst_addr == *excluded` skips). -/
def notExcluded (env : Env) (excluded : Option Nat) (t : Nat) : Bool :=
  match excluded with
  | none => true
  | some a => env.dst_addr t != a

/-- `send_message_on_channel(channel, message_id, data, size, excluded,
prev_header)`: iterate `sol_conns` then `unsol_conns`, skipping the
excluded address. -/
def send_message_on_channel (att : Attester) (wit : Witnesser) (env : Env)
    (σ : NodeState) (channel message_id : Nat) (data : Bytes)
    (excluded : Option Nat) (prev_header : MessageHeaderRec) : List Action :=
  ((σ.sol_conns.filter (notExcluded env excluded)).map
    (fun t => send_message_with_cut_through_check att wit env t channel
      message_id data prev_header)).flatten ++
  ((σ.unsol_conns.filter (notExcluded env excluded)).map
    (fun t => send_message_with_cut_through_check att wit env t channel
      message_id data prev_header)).flatten

/-- `did_recv_MESSAGE(transport, bytes)`; `enable_relay` is the class
template parameter.  Returns (return value, new state, actions). -/
def did_recv_MESSAGE (att : Attester) (wit : Witnesser) (enable_relay : Bool)
    (env : Env) (σ : NodeState) (t : Nat) (bytes : Bytes) :
    Int × NodeState × List Action :=
  let message_id := readU64 bytes 0
  let channel := readU16 bytes 8
  if message_id ∈ σ.message_id_set then
    (0, σ, [])
  else
    let b₁ := bytes.drop 10
    let asize := att.parse_size b₁
    let b₂ := b₁.drop asize
    let wsize := wit.parse_size b₂
    let b₃ := b₂.drop wsize
    let header : MessageHeaderRec :=
      { attestation := b₁.take asize, witness := b₂.take wsize }
    if ¬ att.verify message_id channel b₃ header then
      (-1, σ, [Action.closeTransport t])
    else
      let σ₁ := { σ with
        message_id_set := σ.message_id_set ++ [message_id],
        message_id_events := σ.message_id_events.set σ.message_id_idx
          (σ.message_id_events.getD σ.message_id_idx [] ++ [message_id]) }
      let relayActs :=
        if enable_relay then
          send_message_on_channel att wit env σ₁ channel message_id b₃
            (some (env.dst_addr t)) header
        else []
      (0, σ₁,
       relayActs ++ [Action.delegateDidRecvMessage channel message_id b₃ header])

/-- Sequential processing of a list of incoming MESSAGE frames, collecting
states and actions. -/
def runRecvMessages (att : Attester) (wit : Witnesser) (enable_relay : Bool)
    (env : Env) (σ : NodeState) : List (Nat × Bytes) → NodeState × List Action
  | [] => (σ, [])
  | (t, bs) :: rest =>
    let r := did_recv_MESSAGE att wit enable_relay env σ t bs
    let r' := runRecvMessages att wit enable_relay env r.2.1 rest
    (r'.1, r.2.2 ++ r'.2)

/-- Is this action a delegate `did_recv_message` upcall carrying id `x`? -/
def isDelegateFor (x : Nat) : Action → Bool
  | Action.delegateDidRecvMessage _ i _ _ => i == x
  | _ => false

/-- Number of delegate `did_recv_message` upcalls carrying message id `x`
in an action trace. -/
def delegateCount (x : Nat) (acts : List Action) : Nat :=
  acts.countP (isDelegateFor x)

/-- Insertion of a message id into the dedup set and the current event
bucket (`message_id_set.insert` + `message_id_events[idx].push_back`). -/
def insertMsgId (σ : NodeState) (x : Nat) : NodeState :=
  { σ with
    message_id_set := σ.message_id_set ++ [x],
    message_id_events := σ.message_id_events.set σ.message_id_idx
      (σ.message_id_events.getD σ.message_id_idx [] ++ [x]) }

/-! ### Cut-through router -/

/-- `cut_through_recv_start(transport, id, length)`. -/
def cut_through_recv_start (σ : NodeState) (t id length : Nat) : NodeState :=
  { σ with
    cut_through_map := alset σ.cut_through_map (t, id) [],
    cut_through_header_recv := alset σ.cut_through_header_recv (t, id) false,
    cut_through_length := alset σ.cut_through_length (t, id) length }

/-- The witness filter of `cut_through_recv_bytes`: does `pk` occur as one
of the aligned 32-byte chunks `bytes[13+32*i ..]`, `i < witness_length/32`? -/
def pkInWitness (bytes : Bytes) (witness_length : Nat) (pk : Bytes) : Bool :=
  (List.range (witness_length / 32)).any
    (fun i => ((bytes.drop (13 + 32 * i)).take 32) == pk)

/-- One subscriber loop of `cut_through_recv_bytes` (run once over
`sol_conns`, once over `unsol_conns`): skip the ingress transport, skip
peers whose remote static pk occurs in the witness, call
`cut_through_send_start(len + 32)` on the rest and keep those that return
a nonzero id. -/
def ctAcceptLoop (env : Env) (tin len : Nat) (bytes : Bytes)
    (witness_length : Nat) : List Nat → List (Nat × Nat) × List Action
  | [] => ([], [])
  | s :: rest =>
    let r := ctAcceptLoop env tin len bytes witness_length rest
    if s = tin then r
    else if pkInWitness bytes witness_length (env.remote_static_pk s) then r
    else
      let sid := env.ct_send_start_ret s (len + 32)
      if sid = 0 then
        (r.1, Action.cutThroughSendStart s (len + 32) :: r.2)
      else
        ((s, sid) :: r.1, Action.cutThroughSendStart s (len + 32) :: r.2)

/-- The per-subscriber copy-and-send actions of the post-header branch of
`cut_through_recv_bytes`; a negative `cut_through_send_bytes` return
closes that subscriber. -/
def ctForwardActs (env : Env) (subs : List (Nat × Nat)) (chunk : Bytes) :
    List Action :=
  (subs.map (fun p =>
    if env.ct_send_bytes_ret p.1 p.2 < 0 then
      [Action.cutThroughSendBytes p.1 p.2 chunk, Action.closeTransport p.1]
    else
      [Action.cutThroughSendBytes p.1 p.2 chunk])).flatten

/-- The post-header branch of `cut_through_recv_bytes`: copy the chunk to
every subscriber of the session.  The bare `operator[]` read
default-inserts an empty subscriber list when the key is absent. -/
def forwardChunk (env : Env) (σ : NodeState) (key : Nat × Nat)
    (bytes : Bytes) : NodeState × List Action :=
  ({ σ with cut_through_map := altouch σ.cut_through_map key [] },
   ctForwardActs env (alget σ.cut_through_map key []) bytes)

/-- The forwarded header built by the first-chunk branch: copy the
`13 + witness_length` header bytes, append this node's 32-byte public key
(`crypto_scalarmult_base(new_header + 13 + witness_length, keys)`), and
rewrite the 2-byte `witness_length` field at offset 11 to
`witness_length + 32`. -/
def ctNewHeader (env : Env) (bytes : Bytes) : Bytes :=
  setU16 (bytes.take (13 + readU16 bytes 11) ++ env.node_pk) 11
    (readU16 bytes 11 + 32)

/-- `cut_through_recv_bytes(transport, id, bytes)`.  The first chunk of a
session parses the header, deduplicates, selects subscribers and forwards
the rewritten header plus the rest of the chunk (the C++ does the
forwarding by calling itself twice with `header_recv` now true); later
chunks are copied to the subscribers. -/
def cut_through_recv_bytes (env : Env) (σ : NodeState) (t id : Nat)
    (bytes : Bytes) : Int × NodeState × List Action :=
  let key := (t, id)
  if alget σ.cut_through_header_recv key false then
    let r := forwardChunk env σ key bytes
    (0, r.1, r.2)
  else
    let σ₀ := { σ with
      cut_through_header_recv := altouch σ.cut_through_header_recv key false }
    let witness_length := readU16 bytes 11
    if bytes.length % 65536 < 13 + witness_length then
      (-1, σ₀, [Action.closeTransport t])
    else
      let message_id := readU64 bytes 1
      let σ₁ := { σ₀ with
        cut_through_header_recv := alset σ₀.cut_through_header_recv key true }
      if message_id ∈ σ₁.message_id_set then
        (-1, σ₁, [Action.cutThroughSendSkip t id])
      else
        let σ₂ := { σ₁ with
          message_id_set := σ₁.message_id_set ++ [message_id],
          message_id_events := σ₁.message_id_events.set σ₁.message_id_idx
            (σ₁.message_id_events.getD σ₁.message_id_idx [] ++ [message_id]) }
        let len := alget σ₂.cut_through_length key 0
        let rSol := ctAcceptLoop env t len bytes witness_length σ₂.sol_conns
        let rUnsol := ctAcceptLoop env t len bytes witness_length σ₂.unsol_conns
        let σ₃ := { σ₂ with
          cut_through_map := alset σ₂.cut_through_map key
            (alget σ₂.cut_through_map key [] ++ rSol.1 ++ rUnsol.1) }
        let rHdr := forwardChunk env σ₃ key (ctNewHeader env bytes)
        let rRest := forwardChunk env rHdr.1 key
          (bytes.drop (13 + witness_length))
        (0, rRest.1, rSol.2 ++ rUnsol.2 ++ rHdr.2 ++ rRest.2)

/-- `cut_through_recv_end(transport, id)`. -/
def cut_through_recv_end (σ : NodeState) (t id : Nat) : List Action :=
  (alget σ.cut_through_map (t, id) []).map
    (fun p => Action.cutThroughSendEnd p.1 p.2)

/-- `cut_through_recv_flush(transport, id)`. -/
def cut_through_recv_flush (σ : NodeState) (t id : Nat) : List Action :=
  (alget σ.cut_through_map (t, id) []).map
    (fun p => Action.cutThroughSendFlush p.1 p.2)

/-- Remove the first pair matching `(t, id)` from a subscriber list (the
erase-then-break loop of `cut_through_recv_skip` and `did_close`). -/
def removeFirstSub (keyOf : Nat × Nat → Bool) :
    List (Nat × Nat) → List (Nat × Nat)
  | [] => []
  | x :: xs => if keyOf x then xs else x :: removeFirstSub keyOf xs

/-- `cut_through_recv_skip(transport, id)`: drop `(t, id)` (first
occurrence) from every session's subscriber list. -/
def cut_through_recv_skip (σ : NodeState) (t id : Nat) : NodeState :=
  { σ with
    cut_through_map := σ.cut_through_map.map
      (fun e => (e.1, removeFirstSub (fun p => p.1 == t && p.2 == id) e.2)) }

/-- One step of `did_close`'s flush loop: read `cut_through_map[(t, id)]`
(a default-inserting `operator[]`), emit a flush to each of its
subscribers, and erase the key. -/
def ctFlushStep (t : Nat) (acc : NodeState × List Action) (id : Nat) :
    NodeState × List Action :=
  ({ acc.1 with
      cut_through_map := alerase (altouch acc.1.cut_through_map (t, id) []) (t, id) },
   acc.2 ++ (alget acc.1.cut_through_map (t, id) []).map
     (fun p => Action.cutThroughSendFlush p.1 p.2))

/-- The blacklist insertion of `did_close`, applied when the closed
transport was removed from the solicited or standby set. -/
def blacklistOnClose (env : Env) (t : Nat) (wasSol : Bool) (σ : NodeState) :
    NodeState :=
  if wasSol then
    { σ with blacklist_addr :=
        if env.dst_addr t ∈ σ.blacklist_addr then σ.blacklist_addr
        else σ.blacklist_addr ++ [env.dst_addr t] }
  else σ

/-- The subscription-removal loop of `did_close`: drop the first entry for
transport `t` from every session's subscriber list. -/
def removeSubscriberEntries (t : Nat) (σ : NodeState) : NodeState :=
  { σ with
    cut_through_map := σ.cut_through_map.map
      (fun e => (e.1, removeFirstSub (fun p => p.1 == t) e.2)) }

/-- `did_close(transport)`: remove from the slot sets (blacklisting the
address when the transport was solicited or standby; note the C++
short-circuits the standby removal when the solicited removal succeeded),
flush and erase the sessions the transport fed, remove it from every other
session's subscriber list, and ask the delegate to rebalance. -/
def did_close (env : Env) (σ : NodeState) (t : Nat) :
    NodeState × List Action :=
  let r₁ := remove_conn σ Slot.sol t
  let r₂ := if r₁.1 then r₁ else remove_conn r₁.2.1 Slot.standby t
  let σ₂ := blacklistOnClose env t (r₁.1 || r₂.1) r₂.2.1
  let r₃ := remove_conn σ₂ Slot.unsol t
  let flush := (env.cut_through_used_ids t).foldl (ctFlushStep t) (r₃.2.1, [])
  (removeSubscriberEntries t flush.1,
   r₁.2.2 ++ r₂.2.2 ++ r₃.2.2 ++ flush.2 ++ [Action.manageSubscriptions])

/-- `unsubscribe(addr)`: send UNSUBSCRIBE on every delegate channel to the
transport at `addr`, if any. -/
def unsubscribe (env : Env) (_σ : NodeState) (addr : Nat) : List Action :=
  match env.get_transport addr with
  | none => []
  | some t => env.channels.map (fun ch => Action.sendUNSUBSCRIBE t ch)

/-! ### Parsed components of an incoming MESSAGE body (shorthand used in
theorem statements; these repeat the parsing steps of `did_recv_MESSAGE`) -/

def msgAttestation (att : Attester) (bytes : Bytes) : Bytes :=
  (bytes.drop 10).take (att.parse_size (bytes.drop 10))

def msgWitnessPart (att : Attester) (wit : Witnesser) (bytes : Bytes) : Bytes :=
  ((bytes.drop 10).drop (att.parse_size (bytes.drop 10))).take
    (wit.parse_size ((bytes.drop 10).drop (att.parse_size (bytes.drop 10))))

def msgPayload (att : Attester) (wit : Witnesser) (bytes : Bytes) : Bytes :=
  ((bytes.drop 10).drop (att.parse_size (bytes.drop 10))).drop
    (wit.parse_size ((bytes.drop 10).drop (att.parse_size (bytes.drop 10))))

def msgHeader (att : Attester) (wit : Witnesser) (bytes : Bytes) :
    MessageHeaderRec :=
  { attestation := msgAttestation att bytes,
    witness := msgWitnessPart att wit bytes }

/-! ### Concrete instances used by witness theorems -/

/-- The `EmptyAttester` (sizes 0, `verify` always true). -/
def attTrue : Attester :=
  ⟨fun _ _ _ _ => 0, fun _ _ _ _ => [], fun _ => 0, fun _ _ _ _ => true⟩

/-- An attester whose `verify` always rejects. -/
def attFalse : Attester := { attTrue with verify := fun _ _ _ _ => false }

/-- The `EmptyWitnesser` (sizes 0). -/
def witEmpty : Witnesser := ⟨fun _ => 0, fun _ => [], fun _ => 0⟩

def env0 : Env :=
  ⟨fun a => a, fun _ => List.replicate 32 0, fun _ => none, fun _ => true,
   fun _ _ => 1, fun _ _ => 0, fun _ => 0, List.replicate 32 7, [5],
   fun _ => []⟩

/-- A freshly constructed node: empty slots, empty dedup state, 256 empty
event buckets. -/
def σ0 : NodeState :=
  ⟨2, 2, [], [], [], [], [], List.replicate 256 [], 0, [], [], []⟩

/-! ### C8: attestation failure -/

/-- C8: on a non-duplicate MESSAGE whose attestation fails `verify`,
`did_recv_MESSAGE` closes the transport and returns -1; the delegate is
not invoked and the node state (in particular the dedup state) is
unchanged. -/
theorem did_recv_MESSAGE_attest_fail (att : Attester) (wit : Witnesser)
    (enable_relay : Bool) (env : Env) (σ : NodeState) (t : Nat) (bytes : Bytes)
    (hfresh : readU64 bytes 0 ∉ σ.message_id_set)
    (hver : att.verify (readU64 bytes 0) (readU16 bytes 8)
      (msgPayload att wit bytes) (msgHeader att wit bytes) = false) :
    did_recv_MESSAGE att wit enable_relay env σ t bytes =
      (-1, σ, [Action.closeTransport t]) := by
  simp only [msgPayload, msgHeader, msgAttestation, msgWitnessPart] at hver
  simp at hver
  simp [did_recv_MESSAGE, hfresh, hver]

theorem did_recv_MESSAGE_attest_fail_witness :
    readU64 [0, 0, 0, 0, 0, 0, 0, 1, 0, 5, 9] 0 ∉ σ0.message_id_set ∧
    did_recv_MESSAGE attFalse witEmpty false env0 σ0 3
      [0, 0, 0, 0, 0, 0, 0, 1, 0, 5, 9] = (-1, σ0, [Action.closeTransport 3]) :=
  ⟨by decide,
   did_recv_MESSAGE_attest_fail attFalse witEmpty false env0 σ0 3
     [0, 0, 0, 0, 0, 0, 0, 1, 0, 5, 9] (by decide) (by decide)⟩

/-! ### C1: deduplication -/

lemma did_recv_MESSAGE_dup_drop (att : Attester) (wit : Witnesser)
    (enable_relay : Bool) (env : Env) (σ : NodeState) (t : Nat) (bytes : Bytes)
    (h : readU64 bytes 0 ∈ σ.message_id_set) :
    did_recv_MESSAGE att wit enable_relay env σ t bytes = (0, σ, []) := by
  simp [did_recv_MESSAGE, h]

lemma runRecvMessages_dup (att : Attester) (wit : Witnesser)
    (enable_relay : Bool) (env : Env) :
    ∀ (msgs : List (Nat × Bytes)) (σ : NodeState),
      (∀ p ∈ msgs, readU64 p.2 0 ∈ σ.message_id_set) →
      runRecvMessages att wit enable_relay env σ msgs = (σ, []) := by
  intro msgs
  induction msgs with
  | nil => intro σ _; rfl
  | cons p rest ih =>
    intro σ h
    obtain ⟨t, bs⟩ := p
    have h1 : readU64 bs 0 ∈ σ.message_id_set := h (t, bs) (by simp)
    simp only [runRecvMessages,
      did_recv_MESSAGE_dup_drop att wit enable_relay env σ t bs h1,
      ih σ (fun q hq => h q (List.mem_cons_of_mem _ hq)), List.append_nil]

lemma delegateCount_append (x : Nat) (a b : List Action) :
    delegateCount x (a ++ b) = delegateCount x a + delegateCount x b :=
  List.countP_append _ _ _

lemma delegateCount_send_message_on_channel (att : Attester) (wit : Witnesser)
    (env : Env) (σ : NodeState) (channel message_id : Nat) (data : Bytes)
    (excluded : Option Nat) (prev_header : MessageHeaderRec) (x : Nat) :
    delegateCount x
      (send_message_on_channel att wit env σ channel message_id data excluded
        prev_header) = 0 := by
  unfold delegateCount
  rw [List.countP_eq_zero]
  intro a ha
  unfold send_message_on_channel at ha
  rw [List.mem_append] at ha
  rcases ha with h | h <;>
  · rw [List.mem_flatten] at h
    obtain ⟨l, hl, hal⟩ := h
    rw [List.mem_map] at hl
    obtain ⟨s, _, rfl⟩ := hl
    unfold send_message_with_cut_through_check at hal
    split at hal
    · split at hal <;> simp at hal <;> rcases hal with rfl | rfl <;>
        simp [isDelegateFor]
    · simp at hal; subst hal; simp [isDelegateFor]

/-- The successful branch of `did_recv_MESSAGE`, as an equation. -/
lemma did_recv_MESSAGE_fresh (att : Attester) (wit : Witnesser)
    (enable_relay : Bool) (env : Env) (σ : NodeState) (t : Nat) (bytes : Bytes)
    (hfresh : readU64 bytes 0 ∉ σ.message_id_set)
    (hver : att.verify (readU64 bytes 0) (readU16 bytes 8)
      (msgPayload att wit bytes) (msgHeader att wit bytes) = true) :
    did_recv_MESSAGE att wit enable_relay env σ t bytes =
      (0, insertMsgId σ (readU64 bytes 0),
       (if enable_relay then
          send_message_on_channel att wit env (insertMsgId σ (readU64 bytes 0))
            (readU16 bytes 8) (readU64 bytes 0) (msgPayload att wit bytes)
            (some (env.dst_addr t)) (msgHeader att wit bytes)
        else []) ++
       [Action.delegateDidRecvMessage (readU16 bytes 8) (readU64 bytes 0)
          (msgPayload att wit bytes) (msgHeader att wit bytes)]) := by
  simp only [msgPayload, msgHeader, msgAttestation, msgWitnessPart] at hver ⊢
  simp at hver ⊢
  simp [did_recv_MESSAGE, insertMsgId, hfresh, hver]

/-- C1: deduplication gives at-most-once delivery while an id is retained.
From a state in which id `x` (the first 8 bytes of `bs`, big-endian) is
not in `message_id_set`, a `did_recv_MESSAGE` of `bs` that passes
attestation returns 0, inserts `x`, and invokes the delegate exactly once;
processing any further frames carrying id `x` afterwards changes no state
and produces no further actions; and in general any `did_recv_MESSAGE`
whose id is already in `message_id_set` is a silent drop: it returns 0,
invokes no delegate, and leaves the whole node state unchanged. -/
theorem did_recv_MESSAGE_dedup_exactly_once (att : Attester) (wit : Witnesser)
    (enable_relay : Bool) (env : Env) (σ : NodeState) (t : Nat) (bs : Bytes)
    (rest : List (Nat × Bytes))
    (hfresh : readU64 bs 0 ∉ σ.message_id_set)
    (hver : att.verify (readU64 bs 0) (readU16 bs 8)
      (msgPayload att wit bs) (msgHeader att wit bs) = true)
    (hrest : ∀ p ∈ rest, readU64 p.2 0 = readU64 bs 0) :
    (did_recv_MESSAGE att wit enable_relay env σ t bs).1 = 0 ∧
    readU64 bs 0 ∈
      (did_recv_MESSAGE att wit enable_relay env σ t bs).2.1.message_id_set ∧
    delegateCount (readU64 bs 0)
      (did_recv_MESSAGE att wit enable_relay env σ t bs).2.2 = 1 ∧
    runRecvMessages att wit enable_relay env σ ((t, bs) :: rest) =
      ((did_recv_MESSAGE att wit enable_relay env σ t bs).2.1,
       (did_recv_MESSAGE att wit enable_relay env σ t bs).2.2) ∧
    (∀ (σ' : NodeState) (t' : Nat) (bs' : Bytes),
      readU64 bs' 0 = readU64 bs 0 → readU64 bs 0 ∈ σ'.message_id_set →
      did_recv_MESSAGE att wit enable_relay env σ' t' bs' = (0, σ', [])) := by
  have hstep := did_recv_MESSAGE_fresh att wit enable_relay env σ t bs hfresh hver
  have h1 : (did_recv_MESSAGE att wit enable_relay env σ t bs).1 = 0 := by
    rw [hstep]
  have h2 : readU64 bs 0 ∈
      (did_recv_MESSAGE att wit enable_relay env σ t bs).2.1.message_id_set := by
    rw [hstep]; simp [insertMsgId]
  have h3 : delegateCount (readU64 bs 0)
      (did_recv_MESSAGE att wit enable_relay env σ t bs).2.2 = 1 := by
    rw [hstep]
    show delegateCount _ (_ ++ _) = 1
    rw [delegateCount_append]
    cases enable_relay
    · simp [delegateCount, isDelegateFor]
    · rw [if_pos rfl, delegateCount_send_message_on_channel]
      simp [delegateCount, isDelegateFor]
  have hrun : runRecvMessages att wit enable_relay env
      (did_recv_MESSAGE att wit enable_relay env σ t bs).2.1 rest =
      ((did_recv_MESSAGE att wit enable_relay env σ t bs).2.1, []) :=
    runRecvMessages_dup att wit enable_relay env rest _
      (fun p hp => by rw [hrest p hp]; exact h2)
  refine ⟨h1, h2, h3, ?_, ?_⟩
  · simp only [runRecvMessages, hrun, List.append_nil]
  · intro σ' t' bs' he hm
    exact did_recv_MESSAGE_dup_drop att wit enable_relay env σ' t' bs'
      (he ▸ hm)

/-- Concrete incoming MESSAGE body: id 2, channel 5, payload [7, 7, 7]. -/
def bsC1 : Bytes := [0, 0, 0, 0, 0, 0, 0, 2, 0, 5, 7, 7, 7]

theorem did_recv_MESSAGE_dedup_exactly_once_witness :
    readU64 bsC1 0 ∉ σ0.message_id_set ∧
    delegateCount (readU64 bsC1 0)
      (did_recv_MESSAGE attTrue witEmpty false env0 σ0 1 bsC1).2.2 = 1 ∧
    runRecvMessages attTrue witEmpty false env0 σ0 [(1, bsC1), (2, bsC1)] =
      ((did_recv_MESSAGE attTrue witEmpty false env0 σ0 1 bsC1).2.1,
       (did_recv_MESSAGE attTrue witEmpty false env0 σ0 1 bsC1).2.2) :=
  ⟨by decide,
   (did_recv_MESSAGE_dedup_exactly_once attTrue witEmpty false env0 σ0 1 bsC1
     [(2, bsC1)] (by decide) (by decide) (by decide)).2.2.1,
   (did_recv_MESSAGE_dedup_exactly_once attTrue witEmpty false env0 σ0 1 bsC1
     [(2, bsC1)] (by decide) (by decide) (by decide)).2.2.2.1⟩

/-! ### C2: publish fan-out -/

/-- The transports an action trace sends a MESSAGE to (normal or
cut-through). -/
def msgSendTargets (acts : List Action) : List Nat :=
  acts.filterMap (fun a =>
    match a with
    | Action.transportSend s _ => some s
    | Action.cutThroughSend s _ => some s
    | _ => none)

lemma msgSendTargets_append (a b : List Action) :
    msgSendTargets (a ++ b) = msgSendTargets a ++ msgSendTargets b :=
  List.filterMap_append _ _ _

lemma msgSendTargets_check (att : Attester) (wit : Witnesser) (env : Env)
    (t channel message_id : Nat) (data : Bytes) (prev_header : MessageHeaderRec) :
    msgSendTargets (send_message_with_cut_through_check att wit env t channel
      message_id data prev_header) = [t] := by
  unfold send_message_with_cut_through_check
  split
  · split <;> simp [msgSendTargets]
  · simp [msgSendTargets]

lemma msgSendTargets_flatten_check (att : Attester) (wit : Witnesser)
    (env : Env) (channel message_id : Nat) (data : Bytes)
    (prev_header : MessageHeaderRec) (l : List Nat) :
    msgSendTargets ((l.map (fun t => send_message_with_cut_through_check att
      wit env t channel message_id data prev_header)).flatten) = l := by
  induction l with
  | nil => rfl
  | cons a l ih =>
    simp only [List.map_cons, List.flatten_cons, msgSendTargets_append, ih,
      msgSendTargets_check]
    rfl

lemma mem_send_message_on_channel (att : Attester) (wit : Witnesser)
    (env : Env) (σ : NodeState) (channel message_id : Nat) (data : Bytes)
    (excluded : Option Nat) (prev_header : MessageHeaderRec) (a : Action) :
    a ∈ send_message_on_channel att wit env σ channel message_id data excluded
        prev_header ↔
      ∃ s, (s ∈ σ.sol_conns.filter (notExcluded env excluded) ∨
            s ∈ σ.unsol_conns.filter (notExcluded env excluded)) ∧
        a ∈ send_message_with_cut_through_check att wit env s channel
          message_id data prev_header := by
  unfold send_message_on_channel
  rw [List.mem_append]
  constructor
  · rintro (h | h) <;>
    · rw [List.mem_flatten] at h
      obtain ⟨l, hl, hal⟩ := h
      rw [List.mem_map] at hl
      obtain ⟨s, hs, rfl⟩ := hl
      exact ⟨s, by tauto, hal⟩
  · rintro ⟨s, hs | hs, hal⟩
    · exact Or.inl (List.mem_flatten.2 ⟨_, List.mem_map_of_mem _ hs, hal⟩)
    · exact Or.inr (List.mem_flatten.2 ⟨_, List.mem_map_of_mem _ hs, hal⟩)

/-- C2: the fan-out of `send_message_on_channel`.  A MESSAGE goes to
exactly the solicited and unsolicited transports whose destination address
is not the excluded one (never to a standby transport); payloads over
50000 bytes travel as `cut_through_send` of the created MESSAGE buffer,
smaller ones as a normal framed send of the same buffer. -/
theorem send_message_on_channel_fanout (att : Attester) (wit : Witnesser)
    (env : Env) (σ : NodeState) (channel message_id : Nat) (data : Bytes)
    (excluded : Option Nat) (prev_header : MessageHeaderRec) :
    msgSendTargets (send_message_on_channel att wit env σ channel message_id
        data excluded prev_header) =
      σ.sol_conns.filter (notExcluded env excluded) ++
        σ.unsol_conns.filter (notExcluded env excluded) ∧
    (∀ s, s ∈ msgSendTargets (send_message_on_channel att wit env σ channel
        message_id data excluded prev_header) ↔
      (s ∈ σ.sol_conns ∨ s ∈ σ.unsol_conns) ∧
        notExcluded env excluded s = true) ∧
    (∀ s a, excluded = some a →
      (s ∈ msgSendTargets (send_message_on_channel att wit env σ channel
        message_id data excluded prev_header) ↔
        (s ∈ σ.sol_conns ∨ s ∈ σ.unsol_conns) ∧ env.dst_addr s ≠ a)) ∧
    (excluded = none →
      ∀ s, s ∈ msgSendTargets (send_message_on_channel att wit env σ channel
        message_id data excluded prev_header) ↔
        (s ∈ σ.sol_conns ∨ s ∈ σ.unsol_conns)) ∧
    (∀ s, s ∈ σ.sol_standby_conns → s ∉ σ.sol_conns → s ∉ σ.unsol_conns →
      s ∉ msgSendTargets (send_message_on_channel att wit env σ channel
        message_id data excluded prev_header)) ∧
    (∀ s buf, Action.transportSend s buf ∈ send_message_on_channel att wit env
        σ channel message_id data excluded prev_header →
      data.length ≤ 50000 ∧
        buf = create_MESSAGE att wit channel message_id data prev_header) ∧
    (∀ s buf, Action.cutThroughSend s buf ∈ send_message_on_channel att wit env
        σ channel message_id data excluded prev_header →
      data.length > 50000 ∧
        buf = create_MESSAGE att wit channel message_id data prev_header) ∧
    (∀ s, s ∈ msgSendTargets (send_message_on_channel att wit env σ channel
        message_id data excluded prev_header) →
      if data.length > 50000 then
        Action.cutThroughSend s
            (create_MESSAGE att wit channel message_id data prev_header) ∈
          send_message_on_channel att wit env σ channel message_id data
            excluded prev_header
      else
        Action.transportSend s
            (create_MESSAGE att wit channel message_id data prev_header) ∈
          send_message_on_channel att wit env σ channel message_id data
            excluded prev_header) := by
  have htargets : msgSendTargets (send_message_on_channel att wit env σ channel
      message_id data excluded prev_header) =
      σ.sol_conns.filter (notExcluded env excluded) ++
        σ.unsol_conns.filter (notExcluded env excluded) := by
    unfold send_message_on_channel
    rw [msgSendTargets_append, msgSendTargets_flatten_check,
      msgSendTargets_flatten_check]
  have hmem : ∀ s, s ∈ msgSendTargets (send_message_on_channel att wit env σ
      channel message_id data excluded prev_header) ↔
      (s ∈ σ.sol_conns ∨ s ∈ σ.unsol_conns) ∧
        notExcluded env excluded s = true := by
    intro s
    rw [htargets, List.mem_append, List.mem_filter, List.mem_filter]
    tauto
  refine ⟨htargets, hmem, ?_, ?_, ?_, ?_, ?_, ?_⟩
  · intro s a he
    subst he
    rw [hmem s]
    simp [notExcluded]
  · intro he s
    subst he
    rw [hmem s]
    simp [notExcluded]
  · intro s hsb hs hu hmem'
    rcases (hmem s).1 hmem' with ⟨h | h, _⟩ <;> tauto
  · intro s buf hin
    rw [mem_send_message_on_channel] at hin
    obtain ⟨s', _, hal⟩ := hin
    unfold send_message_with_cut_through_check at hal
    split at hal
    · split at hal <;> simp at hal
    · simp at hal
      exact ⟨by omega, hal.2⟩
  · intro s buf hin
    rw [mem_send_message_on_channel] at hin
    obtain ⟨s', _, hal⟩ := hin
    unfold send_message_with_cut_through_check at hal
    split at hal
    · rename_i hgt
      split at hal <;> simp at hal <;> exact ⟨hgt, hal.2⟩
    · simp at hal
  · intro s hs
    have hs' := (hmem s).1 hs
    have hsl : s ∈ σ.sol_conns.filter (notExcluded env excluded) ∨
        s ∈ σ.unsol_conns.filter (notExcluded env excluded) := by
      rcases hs' with ⟨h | h, hok⟩
      · exact Or.inl (List.mem_filter.2 ⟨h, hok⟩)
      · exact Or.inr (List.mem_filter.2 ⟨h, hok⟩)
    have hact : ∀ b ∈ send_message_with_cut_through_check att wit env s channel
        message_id data prev_header,
        b ∈ send_message_on_channel att wit env σ channel message_id data
          excluded prev_header := by
      intro b hb
      exact (mem_send_message_on_channel att wit env σ channel message_id data
        excluded prev_header b).2 ⟨s, hsl, hb⟩
    split
    · rename_i hgt
      apply hact
      unfold send_message_with_cut_through_check
      rw [if_pos hgt]
      split <;> simp
    · rename_i hle
      apply hact
      unfold send_message_with_cut_through_check
      rw [if_neg hle]
      simp

theorem send_message_on_channel_fanout_witness :
    msgSendTargets (send_message_on_channel attTrue witEmpty env0
        { σ0 with sol_conns := [1, 4], unsol_conns := [3] } 5 9 [7, 7]
        (some 4) ⟨[], []⟩) = [1, 3] :=
  (send_message_on_channel_fanout attTrue witEmpty env0
    { σ0 with sol_conns := [1, 4], unsol_conns := [3] } 5 9 [7, 7]
    (some 4) ⟨[], []⟩).1.trans (by decide)

/-! ### C5: slot caps -/

/-- The two slot-cap bounds of §8. -/
def slotCapsOK (σ : NodeState) : Prop :=
  σ.sol_conns.length ≤ σ.max_sol_conns ∧
  σ.unsol_conns.length ≤ σ.max_unsol_conns

instance (σ : NodeState) : Decidable (slotCapsOK σ) := by
  unfold slotCapsOK; infer_instance

/-- The slot-touching operations of the node. -/
inductive NodeOp where
  | addSol (t : Nat)
  | addUnsol (t : Nat)
  | addStandby (t : Nat)
  | removeC (s : Slot) (t : Nat)
  | recvSubscribe (t : Nat)
  | closeT (t : Nat)
  deriving DecidableEq

def applyOp (accept_unsol_conn : Bool) (env : Env) (σ : NodeState) :
    NodeOp → NodeState
  | .addSol t => (add_sol_conn env σ t).2.1
  | .addUnsol t => (add_unsol_conn σ t).2.1
  | .addStandby t => (add_sol_standby_conn σ t).2
  | .removeC s t => (remove_conn σ s t).2.1
  | .recvSubscribe t => (did_recv_SUBSCRIBE accept_unsol_conn env σ t).2.1
  | .closeT t => (did_close env σ t).1

def applyOps (accept_unsol_conn : Bool) (env : Env) (σ : NodeState)
    (ops : List NodeOp) : NodeState :=
  ops.foldl (applyOp accept_unsol_conn env) σ

lemma remove_conn_fields (σ : NodeState) (s : Slot) (t : Nat) :
    (remove_conn σ s t).2.1.max_sol_conns = σ.max_sol_conns ∧
    (remove_conn σ s t).2.1.max_unsol_conns = σ.max_unsol_conns ∧
    (remove_conn σ s t).2.1.sol_conns.length ≤ σ.sol_conns.length ∧
    (remove_conn σ s t).2.1.unsol_conns.length ≤ σ.unsol_conns.length := by
  unfold remove_conn
  split
  · cases s <;> simp [setSlot] <;> exact List.length_filter_le _ _
  · simp

lemma remove_conn_sol_of_ne (σ : NodeState) (s : Slot) (t : Nat)
    (h : s ≠ Slot.sol) : (remove_conn σ s t).2.1.sol_conns = σ.sol_conns := by
  unfold remove_conn
  split
  · cases s <;> simp [setSlot] <;> simp at h
  · rfl

lemma add_sol_standby_conn_fields (σ : NodeState) (t : Nat) :
    (add_sol_standby_conn σ t).2.max_sol_conns = σ.max_sol_conns ∧
    (add_sol_standby_conn σ t).2.max_unsol_conns = σ.max_unsol_conns ∧
    (add_sol_standby_conn σ t).2.sol_conns = σ.sol_conns ∧
    (add_sol_standby_conn σ t).2.unsol_conns = σ.unsol_conns := by
  unfold add_sol_standby_conn
  split <;> simp

lemma add_sol_conn_caps (env : Env) (σ : NodeState) (t : Nat)
    (h : slotCapsOK σ) : slotCapsOK (add_sol_conn env σ t).2.1 := by
  obtain ⟨h1, h2⟩ := h
  unfold add_sol_conn
  simp only
  split
  · obtain ⟨e1, e2, e3, e4⟩ := add_sol_standby_conn_fields σ t
    exact ⟨by rw [e1, e3]; exact h1, by rw [e2, e4]; exact h2⟩
  · rename_i hlt
    push_neg at hlt
    obtain ⟨f1, f2, f3, f4⟩ := remove_conn_fields σ Slot.standby t
    have g0 := remove_conn_sol_of_ne σ Slot.standby t (by simp)
    obtain ⟨g1, g2, g3, g4⟩ :=
      remove_conn_fields (remove_conn σ Slot.standby t).2.1 Slot.unsol t
    have g5 := remove_conn_sol_of_ne (remove_conn σ Slot.standby t).2.1
      Slot.unsol t (by simp)
    split
    · refine ⟨?_, ?_⟩
      · rw [g5, g0, g1, f1]; exact h1
      · rw [g2, f2]; exact le_trans g4 (le_trans f4 h2)
    · refine ⟨?_, ?_⟩
      · simp only [List.length_append, List.length_cons, List.length_nil]
        rw [g5, g0, g1, f1]
        omega
      · simp only
        rw [g2, f2]; exact le_trans g4 (le_trans f4 h2)

lemma add_unsol_conn_caps (σ : NodeState) (t : Nat) (h : slotCapsOK σ) :
    slotCapsOK (add_unsol_conn σ t).2.1 := by
  obtain ⟨h1, h2⟩ := h
  unfold add_unsol_conn
  split
  · exact ⟨h1, h2⟩
  · rename_i hlt
    push_neg at hlt
    split
    · exact ⟨h1, h2⟩
    · refine ⟨h1, ?_⟩
      simp only [List.length_append, List.length_cons, List.length_nil]
      omega

lemma add_sol_standby_conn_caps (σ : NodeState) (t : Nat) (h : slotCapsOK σ) :
    slotCapsOK (add_sol_standby_conn σ t).2 := by
  obtain ⟨e1, e2, e3, e4⟩ := add_sol_standby_conn_fields σ t
  exact ⟨by rw [e1, e3]; exact h.1, by rw [e2, e4]; exact h.2⟩

lemma remove_conn_caps (σ : NodeState) (s : Slot) (t : Nat)
    (h : slotCapsOK σ) : slotCapsOK (remove_conn σ s t).2.1 := by
  obtain ⟨f1, f2, f3, f4⟩ := remove_conn_fields σ s t
  exact ⟨by rw [f1]; exact le_trans f3 h.1, by rw [f2]; exact le_trans f4 h.2⟩

lemma did_recv_SUBSCRIBE_caps (accept_unsol_conn : Bool) (env : Env)
    (σ : NodeState) (t : Nat) (h : slotCapsOK σ) :
    slotCapsOK (did_recv_SUBSCRIBE accept_unsol_conn env σ t).2.1 := by
  unfold did_recv_SUBSCRIBE
  simp only
  split
  · split
    · exact add_sol_conn_caps env _ t h
    · split <;> exact add_unsol_conn_caps σ t h
  · exact h

lemma ctFlushStep_foldl_slots (t : Nat) :
    ∀ (ids : List Nat) (acc : NodeState × List Action),
      (ids.foldl (ctFlushStep t) acc).1.sol_conns = acc.1.sol_conns ∧
      (ids.foldl (ctFlushStep t) acc).1.unsol_conns = acc.1.unsol_conns ∧
      (ids.foldl (ctFlushStep t) acc).1.max_sol_conns = acc.1.max_sol_conns ∧
      (ids.foldl (ctFlushStep t) acc).1.max_unsol_conns =
        acc.1.max_unsol_conns := by
  intro ids
  induction ids with
  | nil => intro acc; exact ⟨rfl, rfl, rfl, rfl⟩
  | cons id rest ih =>
    intro acc
    have h := ih (ctFlushStep t acc id)
    simp only [List.foldl_cons]
    simpa [ctFlushStep] using h

lemma blacklistOnClose_caps (env : Env) (t : Nat) (wasSol : Bool)
    (σ : NodeState) (h : slotCapsOK σ) :
    slotCapsOK (blacklistOnClose env t wasSol σ) := by
  cases wasSol <;> simp only [blacklistOnClose, Bool.false_eq_true, if_false,
    if_true] <;> exact h

lemma removeSubscriberEntries_caps (t : Nat) (σ : NodeState)
    (h : slotCapsOK σ) : slotCapsOK (removeSubscriberEntries t σ) := h

lemma did_close_caps (env : Env) (σ : NodeState) (t : Nat)
    (h : slotCapsOK σ) : slotCapsOK (did_close env σ t).1 := by
  unfold did_close
  simp only
  apply removeSubscriberEntries_caps
  have h1 : slotCapsOK (remove_conn σ Slot.sol t).2.1 :=
    remove_conn_caps σ Slot.sol t h
  have h2 : slotCapsOK (if (remove_conn σ Slot.sol t).1 then
      remove_conn σ Slot.sol t
    else remove_conn (remove_conn σ Slot.sol t).2.1 Slot.standby t).2.1 := by
    cases hb : (remove_conn σ Slot.sol t).1 <;>
      simp only [hb, Bool.false_eq_true, if_false, if_true]
    · exact remove_conn_caps _ Slot.standby t h1
    · exact h1
  have h3 := blacklistOnClose_caps env t
    ((remove_conn σ Slot.sol t).1 ||
      (if (remove_conn σ Slot.sol t).1 then remove_conn σ Slot.sol t
       else remove_conn (remove_conn σ Slot.sol t).2.1 Slot.standby t).1) _ h2
  have h4 := remove_conn_caps _ Slot.unsol t h3
  obtain ⟨e1, e2, e3, e4⟩ := ctFlushStep_foldl_slots t
    (env.cut_through_used_ids t)
    ((remove_conn (blacklistOnClose env t
      ((remove_conn σ Slot.sol t).1 ||
        (if (remove_conn σ Slot.sol t).1 then remove_conn σ Slot.sol t
         else remove_conn (remove_conn σ Slot.sol t).2.1 Slot.standby t).1)
      (if (remove_conn σ Slot.sol t).1 then remove_conn σ Slot.sol t
       else remove_conn (remove_conn σ Slot.sol t).2.1
         Slot.standby t).2.1) Slot.unsol t).2.1, [])
  exact ⟨by rw [e1, e3]; exact h4.1, by rw [e2, e4]; exact h4.2⟩

lemma applyOp_caps (accept_unsol_conn : Bool) (env : Env) (σ : NodeState)
    (op : NodeOp) (h : slotCapsOK σ) :
    slotCapsOK (applyOp accept_unsol_conn env σ op) := by
  cases op with
  | addSol t => exact add_sol_conn_caps env σ t h
  | addUnsol t => exact add_unsol_conn_caps σ t h
  | addStandby t => exact add_sol_standby_conn_caps σ t h
  | removeC s t => exact remove_conn_caps σ s t h
  | recvSubscribe t => exact did_recv_SUBSCRIBE_caps accept_unsol_conn env σ t h
  | closeT t => exact did_close_caps env σ t h

/-- C5: the slot caps `|sol_conns| ≤ max_sol_conns` and
`|unsol_conns| ≤ max_unsol_conns` are preserved by every sequence of slot
operations, and `add_sol_conn` on a full solicited set leaves `sol_conns`
unchanged, placing the (not already present) transport into the standby
set instead. -/
theorem slot_caps_invariant (accept_unsol_conn : Bool) (env : Env)
    (σ : NodeState) (ops : List NodeOp) (t : Nat) (h : slotCapsOK σ) :
    slotCapsOK (applyOps accept_unsol_conn env σ ops) ∧
    (σ.sol_conns.length ≥ σ.max_sol_conns →
      (add_sol_conn env σ t).2.1.sol_conns = σ.sol_conns ∧
      (check_tranport_present σ t = false →
        t ∈ (add_sol_conn env σ t).2.1.sol_standby_conns)) := by
  constructor
  · induction ops generalizing σ with
    | nil => exact h
    | cons op rest ih =>
      exact ih _ (applyOp_caps accept_unsol_conn env σ op h)
  · intro hfull
    unfold add_sol_conn
    rw [if_pos hfull]
    unfold add_sol_standby_conn
    constructor
    · split <;> rfl
    · intro hnp
      rw [if_neg (by rw [hnp]; exact Bool.false_ne_true)]
      simp

theorem slot_caps_invariant_witness :
    slotCapsOK { σ0 with max_sol_conns := 1, sol_conns := [5] } ∧
    slotCapsOK (applyOps true env0 { σ0 with max_sol_conns := 1, sol_conns := [5] }
      [NodeOp.addSol 0, NodeOp.recvSubscribe 2, NodeOp.addUnsol 6,
       NodeOp.closeT 5, NodeOp.addSol 0]) ∧
    0 ∈ (add_sol_conn env0 { σ0 with max_sol_conns := 1, sol_conns := [5] }
      0).2.1.sol_standby_conns :=
  ⟨by decide,
   (slot_caps_invariant true env0 { σ0 with max_sol_conns := 1, sol_conns := [5] }
     [NodeOp.addSol 0, NodeOp.recvSubscribe 2, NodeOp.addUnsol 6,
      NodeOp.closeT 5, NodeOp.addSol 0] 0 (by decide)).1,
   ((slot_caps_invariant true env0 { σ0 with max_sol_conns := 1, sol_conns := [5] }
     [] 0 (by decide)).2 (by decide)).2 (by decide)⟩

/-! ### C6: incoming SUBSCRIBE from a non-blacklisted sender -/

set_option maxRecDepth 4000 in
/-- C6 counterexample: with `accept_unsol_conn` true and the sender's
transport already present in a slot (here `sol_conns`), `did_recv_SUBSCRIBE`
does not close the transport and does not return -1: it returns 0 and
leaves the state unchanged.  The close-and-return-minus-one path is taken
only when the sender is in no slot after the `add_unsol_conn` attempt. -/
theorem did_recv_SUBSCRIBE_present_counterexample :
    0 ∈ ({ σ0 with sol_conns := [0] } : NodeState).sol_conns ∧
    env0.dst_addr 0 ∉ ({ σ0 with sol_conns := [0] } : NodeState).blacklist_addr ∧
    did_recv_SUBSCRIBE true env0 { σ0 with sol_conns := [0] } 0 =
      (0, { σ0 with sol_conns := [0] }, []) ∧
    (0 : Int) ≠ -1 := by decide

/-- C6 (amended): with `accept_unsol_conn` true and a non-blacklisted
sender, `did_recv_SUBSCRIBE` (i) returns 0 with no state change and no
close when the sender is already present in any slot, (ii) installs the
sender into the unsolicited set and returns 0 when it is in no slot and
the unsolicited set is below capacity, and (iii) closes the transport and
returns -1 exactly when the sender is in no slot and the unsolicited set
is at capacity. -/
theorem did_recv_SUBSCRIBE_unsol_install (env : Env) (σ : NodeState) (t : Nat)
    (hbl : env.dst_addr t ∉ σ.blacklist_addr) :
    (check_tranport_present σ t = true →
      did_recv_SUBSCRIBE true env σ t = (0, σ, [])) ∧
    (check_tranport_present σ t = false →
      σ.unsol_conns.length < σ.max_unsol_conns →
      did_recv_SUBSCRIBE true env σ t =
        (0, { σ with unsol_conns := σ.unsol_conns ++ [t] },
         [Action.sendRESPONSE t true RespMsg.subscribed])) ∧
    (check_tranport_present σ t = false →
      σ.unsol_conns.length ≥ σ.max_unsol_conns →
      did_recv_SUBSCRIBE true env σ t = (-1, σ, [Action.closeTransport t])) := by
  refine ⟨?_, ?_, ?_⟩
  · intro hp
    have hp' : t ∈ σ.sol_conns ∨ t ∈ σ.sol_standby_conns ∨
        t ∈ σ.unsol_conns := by
      simpa [check_tranport_present] using hp
    simp [did_recv_SUBSCRIBE, add_unsol_conn, check_tranport_present, hbl, hp']
  · intro hp hc
    have hp' : ¬ (t ∈ σ.sol_conns ∨ t ∈ σ.sol_standby_conns ∨
        t ∈ σ.unsol_conns) := by
      simpa [check_tranport_present] using hp
    have hc' : ¬ σ.unsol_conns.length ≥ σ.max_unsol_conns := by omega
    simp [did_recv_SUBSCRIBE, add_unsol_conn, check_tranport_present, hbl,
      hp', hc']
  · intro hp hc
    have hp' : ¬ (t ∈ σ.sol_conns ∨ t ∈ σ.sol_standby_conns ∨
        t ∈ σ.unsol_conns) := by
      simpa [check_tranport_present] using hp
    simp [did_recv_SUBSCRIBE, add_unsol_conn, check_tranport_present, hbl,
      hp', hc]

theorem did_recv_SUBSCRIBE_unsol_install_witness :
    env0.dst_addr 7 ∉ σ0.blacklist_addr ∧
    did_recv_SUBSCRIBE true env0 σ0 7 =
      (0, { σ0 with unsol_conns := σ0.unsol_conns ++ [7] },
       [Action.sendRESPONSE 7 true RespMsg.subscribed]) :=
  ⟨by decide,
   (did_recv_SUBSCRIBE_unsol_install env0 σ0 7 (by decide)).2.1
     (by decide) (by decide)⟩

/-! ### C7: incoming SUBSCRIBE from a blacklisted sender -/

/-- C7 counterexample: with the solicited set at capacity, a SUBSCRIBE
from a blacklisted sender does not install the sender into the solicited
set: `add_sol_conn` demotes it to the standby set. -/
theorem did_recv_SUBSCRIBE_blacklist_counterexample :
    env0.dst_addr 0 ∈
      ({ σ0 with max_sol_conns := 1, sol_conns := [5], blacklist_addr := [0] } :
        NodeState).blacklist_addr ∧
    ({ σ0 with max_sol_conns := 1, sol_conns := [5], blacklist_addr := [0] } :
      NodeState).sol_conns.length =
      ({ σ0 with max_sol_conns := 1, sol_conns := [5], blacklist_addr := [0] } :
        NodeState).max_sol_conns ∧
    0 ∉ (did_recv_SUBSCRIBE true env0
      { σ0 with max_sol_conns := 1, sol_conns := [5], blacklist_addr := [0] }
      0).2.1.sol_conns ∧
    0 ∈ (did_recv_SUBSCRIBE true env0
      { σ0 with max_sol_conns := 1, sol_conns := [5], blacklist_addr := [0] }
      0).2.1.sol_standby_conns := by decide

lemma remove_conn_blacklist (σ : NodeState) (s : Slot) (t : Nat) :
    (remove_conn σ s t).2.1.blacklist_addr = σ.blacklist_addr := by
  unfold remove_conn
  split
  · cases s <;> simp [setSlot]
  · rfl

lemma add_sol_conn_blacklist (env : Env) (σ : NodeState) (t : Nat) :
    (add_sol_conn env σ t).2.1.blacklist_addr = σ.blacklist_addr := by
  unfold add_sol_conn
  simp only
  have e1 := remove_conn_blacklist σ Slot.standby t
  have e2 := remove_conn_blacklist (remove_conn σ Slot.standby t).2.1
    Slot.unsol t
  split
  · unfold add_sol_standby_conn
    split <;> rfl
  · split
    · exact e2.trans e1
    · exact e2.trans e1

lemma add_sol_conn_full_sol (env : Env) (σ : NodeState) (t : Nat)
    (hfull : σ.sol_conns.length ≥ σ.max_sol_conns) :
    (add_sol_conn env σ t).2.1.sol_conns = σ.sol_conns := by
  unfold add_sol_conn
  rw [if_pos hfull]
  unfold add_sol_standby_conn
  split <;> rfl

lemma add_sol_conn_full_standby (env : Env) (σ : NodeState) (t : Nat)
    (hfull : σ.sol_conns.length ≥ σ.max_sol_conns)
    (hnp : check_tranport_present σ t = false) :
    t ∈ (add_sol_conn env σ t).2.1.sol_standby_conns := by
  unfold add_sol_conn
  rw [if_pos hfull]
  unfold add_sol_standby_conn
  rw [if_neg (by rw [hnp]; exact Bool.false_ne_true)]
  simp

lemma add_sol_conn_inserts (env : Env) (σ : NodeState) (t : Nat)
    (hlt : σ.sol_conns.length < σ.max_sol_conns)
    (hnp : check_tranport_present σ t = false) :
    (add_sol_conn env σ t).2.1.sol_conns = σ.sol_conns ++ [t] := by
  have hnp' : ¬ (t ∈ σ.sol_conns ∨ t ∈ σ.sol_standby_conns ∨
      t ∈ σ.unsol_conns) := by
    simpa [check_tranport_present] using hnp
  push_neg at hnp'
  obtain ⟨m1, m2, m3⟩ := hnp'
  have e₁ : remove_conn σ Slot.standby t = (false, σ, []) := by
    unfold remove_conn
    rw [if_neg (by simpa [getSlot] using m2)]
  have e₂ : remove_conn σ Slot.unsol t = (false, σ, []) := by
    unfold remove_conn
    rw [if_neg (by simpa [getSlot] using m3)]
  unfold add_sol_conn
  rw [if_neg (by omega)]
  simp only [e₁, e₂]
  rw [if_neg (by rw [hnp]; exact Bool.false_ne_true)]

/-- C7 (amended): with `accept_unsol_conn` true and the sender's address
blacklisted, `did_recv_SUBSCRIBE` removes the address from the blacklist
and hands the transport to `add_sol_conn`, so the sender reaches the
solicited set only when that set is below capacity; at capacity the (not
already present) sender is placed into the standby set and `sol_conns` is
unchanged. -/
theorem did_recv_SUBSCRIBE_blacklisted (env : Env) (σ : NodeState) (t : Nat)
    (hbl : env.dst_addr t ∈ σ.blacklist_addr) :
    (did_recv_SUBSCRIBE true env σ t).1 = 0 ∧
    env.dst_addr t ∉ (did_recv_SUBSCRIBE true env σ t).2.1.blacklist_addr ∧
    (σ.sol_conns.length ≥ σ.max_sol_conns →
      (did_recv_SUBSCRIBE true env σ t).2.1.sol_conns = σ.sol_conns ∧
      (check_tranport_present σ t = false →
        t ∈ (did_recv_SUBSCRIBE true env σ t).2.1.sol_standby_conns)) ∧
    (σ.sol_conns.length < σ.max_sol_conns →
      check_tranport_present σ t = false →
      t ∈ (did_recv_SUBSCRIBE true env σ t).2.1.sol_conns) := by
  have hnotin : ∀ l : List Nat,
      env.dst_addr t ∉ l.filter (fun a => a != env.dst_addr t) := by
    intro l hmem
    have := List.of_mem_filter hmem
    simp at this
  have hstep : did_recv_SUBSCRIBE true env σ t =
      (0, (add_sol_conn env (eraseBlacklist env σ t) t).2.1,
       (add_sol_conn env (eraseBlacklist env σ t) t).2.2) := by
    simp [did_recv_SUBSCRIBE, hbl]
  refine ⟨?_, ?_, ?_, ?_⟩
  · rw [hstep]
  · rw [hstep]
    show env.dst_addr t ∉
      (add_sol_conn env (eraseBlacklist env σ t) t).2.1.blacklist_addr
    rw [add_sol_conn_blacklist]
    exact hnotin _
  · intro hfull
    rw [hstep]
    have hfull' : (eraseBlacklist env σ t).sol_conns.length ≥
        (eraseBlacklist env σ t).max_sol_conns := hfull
    constructor
    · exact add_sol_conn_full_sol env (eraseBlacklist env σ t) t hfull'
    · intro hnp
      exact add_sol_conn_full_standby env (eraseBlacklist env σ t) t hfull' hnp
  · intro hlt hnp
    rw [hstep]
    have hlt' : (eraseBlacklist env σ t).sol_conns.length <
        (eraseBlacklist env σ t).max_sol_conns := hlt
    show t ∈ (add_sol_conn env (eraseBlacklist env σ t) t).2.1.sol_conns
    rw [add_sol_conn_inserts env (eraseBlacklist env σ t) t hlt' hnp]
    simp

theorem did_recv_SUBSCRIBE_blacklisted_witness :
    env0.dst_addr 0 ∈
      ({ σ0 with blacklist_addr := [0] } : NodeState).blacklist_addr ∧
    0 ∈ (did_recv_SUBSCRIBE true env0 { σ0 with blacklist_addr := [0] }
      0).2.1.sol_conns :=
  ⟨by decide,
   ((did_recv_SUBSCRIBE_blacklisted env0 { σ0 with blacklist_addr := [0] } 0
     (by decide)).2.2.2 (by decide) (by decide))⟩

/-! ### C9: subscribe idempotence and blacklist guard -/

lemma add_sol_conn_noop (env : Env) (σ : NodeState) (t : Nat)
    (hsol : t ∈ σ.sol_conns) (hsb : t ∉ σ.sol_standby_conns)
    (hus : t ∉ σ.unsol_conns) :
    add_sol_conn env σ t = (false, σ, []) := by
  have hpres : check_tranport_present σ t = true := by
    simp [check_tranport_present, hsol]
  unfold add_sol_conn
  simp only
  split
  · unfold add_sol_standby_conn
    rw [if_pos hpres]
  · have e₁ : remove_conn σ Slot.standby t = (false, σ, []) := by
      unfold remove_conn
      rw [if_neg (by simpa [getSlot] using hsb)]
    have e₂ : remove_conn σ Slot.unsol t = (false, σ, []) := by
      unfold remove_conn
      rw [if_neg (by simpa [getSlot] using hus)]
    simp only [e₁, e₂]
    rw [if_pos hpres]
    rfl

/-- C9: `subscribe` is a complete no-op for a blacklisted address (no
dial, no state change, no send), and is idempotent: a second `subscribe`
for an address whose active transport is already in the solicited set (and,
per the one-slot invariant, in no other slot) changes no state and sends
nothing. -/
theorem subscribe_idempotent_blacklist_guard (env : Env) (σ : NodeState)
    (addr : Nat) :
    (addr ∈ σ.blacklist_addr → subscribe env σ addr = (σ, [])) ∧
    (∀ t, addr ∉ σ.blacklist_addr → env.get_transport addr = some t →
      env.is_active t = true → t ∈ σ.sol_conns → t ∉ σ.sol_standby_conns →
      t ∉ σ.unsol_conns → subscribe env σ addr = (σ, [])) := by
  constructor
  · intro h
    simp [subscribe, h]
  · intro t hbl hsome hact hsol hsb hus
    simp [subscribe, hbl, hsome, hact,
      add_sol_conn_noop env σ t hsol hsb hus]

theorem subscribe_idempotent_blacklist_guard_witness :
    (9 ∈ ({ σ0 with blacklist_addr := [9] } : NodeState).blacklist_addr ∧
      subscribe env0 { σ0 with blacklist_addr := [9] } 9 =
        ({ σ0 with blacklist_addr := [9] }, [])) ∧
    ({ env0 with get_transport := fun a => if a = 8 then some 1 else none
      : Env }.get_transport 8 = some 1 ∧
      subscribe { env0 with get_transport := fun a =>
          if a = 8 then some 1 else none }
        { σ0 with sol_conns := [1] } 8 =
        ({ σ0 with sol_conns := [1] }, [])) :=
  ⟨⟨by decide,
    (subscribe_idempotent_blacklist_guard env0
      { σ0 with blacklist_addr := [9] } 9).1 (by decide)⟩,
   ⟨by decide,
    (subscribe_idempotent_blacklist_guard
      { env0 with get_transport := fun a => if a = 8 then some 1 else none }
      { σ0 with sol_conns := [1] } 8).2 1 (by decide) (by decide) (by decide)
      (by decide) (by decide) (by decide)⟩⟩

/-! ### C10: the address overload of add_sol_conn -/

/-- C10: the address overload `add_sol_conn(addr)` returns `false` when
the transport lookup fails, but on a successful lookup control falls off
the end of the bool-returning C++ function without a return statement
(undefined behaviour), modelled as the `none` result: the function does
not return a well-defined boolean on that path. -/
theorem add_sol_conn_addr_fallthrough (env : Env) (σ : NodeState)
    (addr t : Nat) (h : env.get_transport addr = some t) :
    (add_sol_conn_addr env σ addr).1 = none ∧
    (∀ (env' : Env) (σ' : NodeState) (addr' : Nat),
      env'.get_transport addr' = none →
      (add_sol_conn_addr env' σ' addr').1 = some false) := by
  constructor
  · simp [add_sol_conn_addr, h]
  · intro env' σ' addr' h'
    simp [add_sol_conn_addr, h']

theorem add_sol_conn_addr_fallthrough_witness :
    ({ env0 with get_transport := fun a => if a = 8 then some 1 else none
      : Env }.get_transport 8 = some 1) ∧
    (add_sol_conn_addr
      { env0 with get_transport := fun a => if a = 8 then some 1 else none }
      σ0 8).1 = none :=
  ⟨by decide,
   (add_sol_conn_addr_fallthrough
     { env0 with get_transport := fun a => if a = 8 then some 1 else none }
     σ0 8 1 (by decide)).1⟩

/-! ### C3/C4: the first chunk of a cut-through session -/

lemma alget_alset_self {α : Type} (l : List ((Nat × Nat) × α)) (k : Nat × Nat)
    (v d : α) : alget (alset l k v) k d = v := by
  induction l with
  | nil => simp [alset, alget]
  | cons e rest ih =>
    by_cases he : e.1 = k
    · simp [alset, alget, he]
    · simp [alset, alget, he, ih]

lemma altouch_alset {α : Type} (l : List ((Nat × Nat) × α)) (k : Nat × Nat)
    (v d : α) : altouch (alset l k v) k d = alset l k v := by
  induction l with
  | nil => simp [alset, altouch]
  | cons e rest ih =>
    by_cases he : e.1 = k
    · simp [alset, altouch, he]
    · simp [alset, altouch, he, ih]

/-- The subscriber list the first-chunk branch appends for a session
`(t, id)`: the solicited pass followed by the unsolicited pass. -/
def ctAcceptedFrom (env : Env) (σ : NodeState) (t id : Nat) (bytes : Bytes) :
    List (Nat × Nat) :=
  (ctAcceptLoop env t (alget σ.cut_through_length (t, id) 0) bytes
    (readU16 bytes 11) σ.sol_conns).1 ++
  (ctAcceptLoop env t (alget σ.cut_through_length (t, id) 0) bytes
    (readU16 bytes 11) σ.unsol_conns).1

/-- Evaluation of the first-chunk branch of `cut_through_recv_bytes` when
the header check passes and the message id is fresh. -/
lemma cut_through_recv_bytes_first (env : Env) (σ : NodeState) (t id : Nat)
    (bytes : Bytes)
    (hhr : alget σ.cut_through_header_recv (t, id) false = false)
    (hov : ¬ bytes.length % 65536 < 13 + readU16 bytes 11)
    (hfresh : readU64 bytes 1 ∉ σ.message_id_set) :
    cut_through_recv_bytes env σ t id bytes =
      (0,
       { σ with
         message_id_set := σ.message_id_set ++ [readU64 bytes 1],
         message_id_events := σ.message_id_events.set σ.message_id_idx
           (σ.message_id_events.getD σ.message_id_idx [] ++ [readU64 bytes 1]),
         cut_through_map := alset σ.cut_through_map (t, id)
           (alget σ.cut_through_map (t, id) [] ++
             ctAcceptedFrom env σ t id bytes),
         cut_through_header_recv :=
           alset (altouch σ.cut_through_header_recv (t, id) false) (t, id)
             true },
       (ctAcceptLoop env t (alget σ.cut_through_length (t, id) 0) bytes
           (readU16 bytes 11) σ.sol_conns).2 ++
         (ctAcceptLoop env t (alget σ.cut_through_length (t, id) 0) bytes
           (readU16 bytes 11) σ.unsol_conns).2 ++
         ctForwardActs env
           (alget σ.cut_through_map (t, id) [] ++
             ctAcceptedFrom env σ t id bytes) (ctNewHeader env bytes) ++
         ctForwardActs env
           (alget σ.cut_through_map (t, id) [] ++
             ctAcceptedFrom env σ t id bytes)
           (bytes.drop (13 + readU16 bytes 11))) := by
  unfold cut_through_recv_bytes forwardChunk
  rw [if_neg (by rw [hhr]; exact Bool.false_ne_true)]
  simp [ctAcceptedFrom, hov, hfresh, alget_alset_self, altouch_alset,
    List.append_assoc]

lemma ctAcceptLoop_mem (env : Env) (tin len : Nat) (bytes : Bytes) (wl : Nat) :
    ∀ (subs : List Nat) (p : Nat × Nat),
      p ∈ (ctAcceptLoop env tin len bytes wl subs).1 →
      p.1 ∈ subs ∧ p.1 ≠ tin ∧
        pkInWitness bytes wl (env.remote_static_pk p.1) = false := by
  intro subs
  induction subs with
  | nil => intro p hp; simp [ctAcceptLoop] at hp
  | cons s rest ih =>
    intro p hp
    simp only [ctAcceptLoop] at hp
    by_cases h1 : s = tin
    · rw [if_pos h1] at hp
      have h := ih p hp
      exact ⟨List.mem_cons_of_mem _ h.1, h.2⟩
    · rw [if_neg h1] at hp
      by_cases h2 : pkInWitness bytes wl (env.remote_static_pk s) = true
      · rw [if_pos h2] at hp
        have h := ih p hp
        exact ⟨List.mem_cons_of_mem _ h.1, h.2⟩
      · rw [if_neg h2] at hp
        rw [Bool.not_eq_true] at h2
        by_cases h3 : env.ct_send_start_ret s (len + 32) = 0
        · rw [if_pos h3] at hp
          have h := ih p hp
          exact ⟨List.mem_cons_of_mem _ h.1, h.2⟩
        · rw [if_neg h3] at hp
          simp only [List.mem_cons] at hp
          rcases hp with rfl | hp
          · exact ⟨by simp, h1, h2⟩
          · have h := ih p hp
            exact ⟨List.mem_cons_of_mem _ h.1, h.2⟩

lemma ctAcceptLoop_acts (env : Env) (tin len : Nat) (bytes : Bytes)
    (wl : Nat) :
    ∀ (subs : List Nat) (a : Action),
      a ∈ (ctAcceptLoop env tin len bytes wl subs).2 →
      ∃ s l, a = Action.cutThroughSendStart s l := by
  intro subs
  induction subs with
  | nil => intro a ha; simp [ctAcceptLoop] at ha
  | cons s rest ih =>
    intro a ha
    simp only [ctAcceptLoop] at ha
    by_cases h1 : s = tin
    · rw [if_pos h1] at ha
      exact ih a ha
    · rw [if_neg h1] at ha
      by_cases h2 : pkInWitness bytes wl (env.remote_static_pk s) = true
      · rw [if_pos h2] at ha
        exact ih a ha
      · rw [if_neg h2] at ha
        by_cases h3 : env.ct_send_start_ret s (len + 32) = 0
        · rw [if_pos h3] at ha
          simp only [List.mem_cons] at ha
          rcases ha with rfl | ha
          · exact ⟨s, len + 32, rfl⟩
          · exact ih a ha
        · rw [if_neg h3] at ha
          simp only [List.mem_cons] at ha
          rcases ha with rfl | ha
          · exact ⟨s, len + 32, rfl⟩
          · exact ih a ha

lemma mem_ctForwardActs_inv (env : Env) (subs : List (Nat × Nat))
    (chunk : Bytes) (a : Action) (ha : a ∈ ctForwardActs env subs chunk) :
    (∃ p ∈ subs, a = Action.cutThroughSendBytes p.1 p.2 chunk) ∨
    (∃ p ∈ subs, a = Action.closeTransport p.1) := by
  unfold ctForwardActs at ha
  rw [List.mem_flatten] at ha
  obtain ⟨l, hl, hal⟩ := ha
  rw [List.mem_map] at hl
  obtain ⟨p, hp, rfl⟩ := hl
  split at hal
  · simp only [List.mem_cons] at hal
    rcases hal with rfl | hal
    · exact Or.inl ⟨p, hp, rfl⟩
    · simp at hal
      subst hal
      exact Or.inr ⟨p, hp, rfl⟩
  · simp at hal
    subst hal
    exact Or.inl ⟨p, hp, rfl⟩

lemma ctForwardActs_mem (env : Env) (subs : List (Nat × Nat)) (chunk : Bytes)
    (p : Nat × Nat) (hp : p ∈ subs) :
    Action.cutThroughSendBytes p.1 p.2 chunk ∈ ctForwardActs env subs chunk := by
  unfold ctForwardActs
  rw [List.mem_flatten]
  refine ⟨_, List.mem_map_of_mem _ hp, ?_⟩
  split <;> simp

/-- C3: on the first chunk of a fresh cut-through session, every
subscriber recorded for the session comes from the solicited or
unsolicited set, is distinct from the ingress transport, and its remote
static public key does not occur as an aligned 32-byte chunk of the
witness; consequently no transport equal to the ingress, and no transport
whose key occurs in the witness, is sent any relayed bytes. -/
theorem cut_through_loop_avoidance (env : Env) (σ : NodeState) (t id : Nat)
    (bytes : Bytes)
    (hhr : alget σ.cut_through_header_recv (t, id) false = false)
    (hmap : alget σ.cut_through_map (t, id) [] = [])
    (hfresh : readU64 bytes 1 ∉ σ.message_id_set)
    (hlen : 13 + readU16 bytes 11 ≤ bytes.length)
    (hsmall : bytes.length < 65536) :
    (cut_through_recv_bytes env σ t id bytes).1 = 0 ∧
    (∀ p ∈ alget
        (cut_through_recv_bytes env σ t id bytes).2.1.cut_through_map
        (t, id) [],
      (p.1 ∈ σ.sol_conns ∨ p.1 ∈ σ.unsol_conns) ∧ p.1 ≠ t ∧
        pkInWitness bytes (readU16 bytes 11) (env.remote_static_pk p.1) =
          false) ∧
    (∀ s, (s = t ∨
        pkInWitness bytes (readU16 bytes 11) (env.remote_static_pk s) = true) →
      ∀ sid buf, Action.cutThroughSendBytes s sid buf ∉
        (cut_through_recv_bytes env σ t id bytes).2.2) := by
  have hov : ¬ bytes.length % 65536 < 13 + readU16 bytes 11 := by
    rw [Nat.mod_eq_of_lt hsmall]; omega
  have heval := cut_through_recv_bytes_first env σ t id bytes hhr hov hfresh
  have hacc : ∀ p ∈ ctAcceptedFrom env σ t id bytes,
      (p.1 ∈ σ.sol_conns ∨ p.1 ∈ σ.unsol_conns) ∧ p.1 ≠ t ∧
        pkInWitness bytes (readU16 bytes 11) (env.remote_static_pk p.1) =
          false := by
    intro p hp
    unfold ctAcceptedFrom at hp
    rw [List.mem_append] at hp
    rcases hp with hp | hp
    · have h := ctAcceptLoop_mem env t _ bytes _ _ p hp
      exact ⟨Or.inl h.1, h.2⟩
    · have h := ctAcceptLoop_mem env t _ bytes _ _ p hp
      exact ⟨Or.inr h.1, h.2⟩
  refine ⟨by rw [heval], ?_, ?_⟩
  · intro p hp
    rw [heval] at hp
    simp only [alget_alset_self, hmap, List.nil_append] at hp
    exact hacc p hp
  · intro s hs sid buf hmem
    rw [heval] at hmem
    simp only [hmap, List.nil_append, List.mem_append] at hmem
    have hnot : ∀ p ∈ ctAcceptedFrom env σ t id bytes, p.1 ≠ s := by
      intro p hp
      have h := hacc p hp
      rcases hs with rfl | hpk
      · exact h.2.1
      · intro he
        rw [he] at h
        rw [h.2.2] at hpk
        exact Bool.false_ne_true hpk
    rcases hmem with ((hmem | hmem) | hmem) | hmem
    · obtain ⟨s', l', he⟩ := ctAcceptLoop_acts env t _ bytes _ _ _ hmem
      exact Action.noConfusion he
    · obtain ⟨s', l', he⟩ := ctAcceptLoop_acts env t _ bytes _ _ _ hmem
      exact Action.noConfusion he
    · rcases mem_ctForwardActs_inv env _ _ _ hmem with ⟨p, hp, he⟩ | ⟨p, hp, he⟩
      · injection he with h1 h2 h3
        exact hnot p hp (h1.symm)
      · exact Action.noConfusion he
    · rcases mem_ctForwardActs_inv env _ _ _ hmem with ⟨p, hp, he⟩ | ⟨p, hp, he⟩
      · injection he with h1 h2 h3
        exact hnot p hp (h1.symm)
      · exact Action.noConfusion he

/-- Concrete environment for the cut-through witnesses: transport 2's
remote static key equals the witness chunk of `bsC3`; `cut_through_send_start`
returns `s + 100` for subscriber `s`. -/
def envC3 : Env :=
  { env0 with
    remote_static_pk := fun s =>
      if s = 2 then List.replicate 32 1 else List.replicate 32 0,
    ct_send_start_ret := fun s _ => s + 100 }

/-- Concrete node state with a fresh cut-through session from ingress
transport 5, stream 9. -/
def σC3 : NodeState :=
  { σ0 with
    sol_conns := [1, 2, 5],
    unsol_conns := [3],
    cut_through_map := [((5, 9), [])],
    cut_through_length := [((5, 9), 100)],
    cut_through_header_recv := [((5, 9), false)] }

/-- Concrete first chunk: type 3, message id 4, channel 6, witness length
32, witness of thirty-two 1-bytes, then payload [9, 8, 7]. -/
def bsC3 : Bytes :=
  [3, 0, 0, 0, 0, 0, 0, 0, 4, 0, 6, 0, 32] ++ List.replicate 32 1 ++ [9, 8, 7]

set_option maxRecDepth 8000 in
theorem cut_through_loop_avoidance_witness :
    alget σC3.cut_through_header_recv (5, 9) false = false ∧
    pkInWitness bsC3 (readU16 bsC3 11) (envC3.remote_static_pk 2) = true ∧
    (∀ sid buf, Action.cutThroughSendBytes 2 sid buf ∉
      (cut_through_recv_bytes envC3 σC3 5 9 bsC3).2.2) ∧
    (∀ sid buf, Action.cutThroughSendBytes 5 sid buf ∉
      (cut_through_recv_bytes envC3 σC3 5 9 bsC3).2.2) :=
  ⟨by decide, by decide,
   (cut_through_loop_avoidance envC3 σC3 5 9 bsC3 (by decide) (by decide)
     (by decide) (by decide) (by decide)).2.2 2 (Or.inr (by decide)),
   (cut_through_loop_avoidance envC3 σC3 5 9 bsC3 (by decide) (by decide)
     (by decide) (by decide) (by decide)).2.2 5 (Or.inl rfl)⟩

lemma setU16_append (A B : Bytes) (v : Nat) (h : 13 ≤ A.length) :
    setU16 (A ++ B) 11 v = setU16 A 11 v ++ B := by
  unfold setU16
  rw [List.take_append_of_le_length (by omega),
    List.drop_append_of_le_length h]
  simp [List.append_assoc]

/-- C4: on the first chunk of a fresh session, the header forwarded to
every recorded subscriber is the original `13 + witness_length` header
bytes with the 2-byte `witness_length` field rewritten to
`witness_length + 32` and this node's 32-byte public key appended, and
the remaining payload bytes are forwarded unchanged. -/
theorem cut_through_header_rewrite (env : Env) (σ : NodeState) (t id : Nat)
    (bytes : Bytes)
    (hhr : alget σ.cut_through_header_recv (t, id) false = false)
    (hmap : alget σ.cut_through_map (t, id) [] = [])
    (hfresh : readU64 bytes 1 ∉ σ.message_id_set)
    (hlen : 13 + readU16 bytes 11 ≤ bytes.length)
    (hsmall : bytes.length < 65536) :
    ctNewHeader env bytes =
      setU16 (bytes.take (13 + readU16 bytes 11)) 11
        (readU16 bytes 11 + 32) ++ env.node_pk ∧
    ∀ p ∈ alget
        (cut_through_recv_bytes env σ t id bytes).2.1.cut_through_map
        (t, id) [],
      Action.cutThroughSendBytes p.1 p.2 (ctNewHeader env bytes) ∈
        (cut_through_recv_bytes env σ t id bytes).2.2 ∧
      Action.cutThroughSendBytes p.1 p.2
          (bytes.drop (13 + readU16 bytes 11)) ∈
        (cut_through_recv_bytes env σ t id bytes).2.2 := by
  have hov : ¬ bytes.length % 65536 < 13 + readU16 bytes 11 := by
    rw [Nat.mod_eq_of_lt hsmall]; omega
  have heval := cut_through_recv_bytes_first env σ t id bytes hhr hov hfresh
  constructor
  · unfold ctNewHeader
    apply setU16_append
    rw [List.length_take]
    omega
  · intro p hp
    rw [heval] at hp
    simp only [alget_alset_self, hmap, List.nil_append] at hp
    rw [heval]
    constructor
    · simp only [List.mem_append]
      refine Or.inl (Or.inr ?_)
      rw [hmap, List.nil_append]
      exact ctForwardActs_mem env _ _ p hp
    · simp only [List.mem_append]
      refine Or.inr ?_
      rw [hmap, List.nil_append]
      exact ctForwardActs_mem env _ _ p hp

set_option maxRecDepth 8000 in
theorem cut_through_header_rewrite_witness :
    (1, 101) ∈ alget
      (cut_through_recv_bytes envC3 σC3 5 9 bsC3).2.1.cut_through_map
      (5, 9) [] ∧
    ctNewHeader envC3 bsC3 =
      setU16 (bsC3.take (13 + readU16 bsC3 11)) 11
        (readU16 bsC3 11 + 32) ++ envC3.node_pk ∧
    Action.cutThroughSendBytes 1 101 (ctNewHeader envC3 bsC3) ∈
      (cut_through_recv_bytes envC3 σC3 5 9 bsC3).2.2 ∧
    Action.cutThroughSendBytes 1 101 (bsC3.drop (13 + readU16 bsC3 11)) ∈
      (cut_through_recv_bytes envC3 σC3 5 9 bsC3).2.2 :=
  ⟨by decide,
   (cut_through_header_rewrite envC3 σC3 5 9 bsC3 (by decide) (by decide)
     (by decide) (by decide) (by decide)).1,
   ((cut_through_header_rewrite envC3 σC3 5 9 bsC3 (by decide) (by decide)
     (by decide) (by decide) (by decide)).2 (1, 101) (by decide)).1,
   ((cut_through_header_rewrite envC3 σC3 5 9 bsC3 (by decide) (by decide)
     (by decide) (by decide) (by decide)).2 (1, 101) (by decide)).2⟩

end Marlin
